import Mathlib

/-!
Verification of the HTTP client (src/lib/api.ts), the registration service
and the registration modal submit flow of the theprogrammersacademy
repository, as a shallow embedding in Lean 4.

Modelling conventions:
  - JavaScript runtime values that flow through the client are modelled by
    the inductive type Json below; a body decoded with response.text() is
    represented as Json.str.
  - The platform fetch call is modelled by its observable outcome, the type
    FetchOutcome: either the abort timer fired first (fetch rejects with an
    error whose name is AbortError), or fetch rejected with some other
    error, or a response arrived.  A response is modelled together with its
    already decoded JSON body (response.json() is assumed to succeed) and
    its text body.
  - A run of the core request function records the duration armed on the
    cancellation timer, the list of network requests actually issued
    (the source performs exactly one fetch, so the list is a singleton by
    construction, which makes the no-retry property expressible), and the
    settled result: the resolved value or the rejection value.
  - The process wide base URL (import.meta.env.VITE_API_BASE_URL) is passed
    as an explicit parameter, as suggested by the design notes of the spec.
-/

/-- JavaScript values exchanged with the server, in particular decoded
response bodies and request payloads. -/
inductive Json where
  | null
  | bool (b : Bool)
  | num (n : Int)
  | str (s : String)
  | arr (elems : List Json)
  | obj (fields : List (String × Json))
deriving Repr

/-- Property lookup on a list of object fields: first entry with the key,
matching the access data.message on an object value. -/
def fieldLookup : List (String × Json) → String → Option Json
  | [], _ => none
  | p :: rest, key => if p.1 = key then some p.2 else fieldLookup rest key

/-- Optional chaining data?.message: a property read that yields the field
of an object and undefined (none) on any non-object value. -/
def getField : Json → String → Option Json
  | Json.obj fields, key => fieldLookup fields key
  | _, _ => none

/-- JavaScript truthiness of a value, as used by the || operator in
data?.message || "Something went wrong" (api.ts line 63). -/
def jsTruthy : Json → Bool
  | Json.null => false
  | Json.bool b => b
  | Json.num n => n != 0
  | Json.str s => s != ""
  | Json.arr _ => true
  | Json.obj _ => true

/-- Escape of one character inside a JSON string literal (quote and
backslash; control characters do not occur in the payloads considered). -/
def escapeChar (c : Char) : String :=
  if c = '\"' then "\\\"" else if c = '\\' then "\\\\" else String.singleton c

/-- Escape of a whole string for JSON serialization. -/
def escapeString (s : String) : String :=
  s.foldl (fun acc c => acc ++ escapeChar c) ""

mutual
/-- Model of JSON.stringify on a JavaScript value (api.ts line 98). -/
def stringify : Json → String
  | Json.null => "null"
  | Json.bool b => if b then "true" else "false"
  | Json.num n => toString n
  | Json.str s => "\"" ++ escapeString s ++ "\""
  | Json.arr xs => "[" ++ stringifyElems xs ++ "]"
  | Json.obj fs => "\x7b" ++ stringifyFields fs ++ "\x7d"

/-- Serialization of the element list of a JSON array. -/
def stringifyElems : List Json → String
  | [] => ""
  | [x] => stringify x
  | x :: xs => stringify x ++ "," ++ stringifyElems xs

/-- Serialization of the field list of a JSON object. -/
def stringifyFields : List (String × Json) → String
  | [] => ""
  | [(k, v)] => "\"" ++ escapeString k ++ "\":" ++ stringify v
  | (k, v) :: fs => "\"" ++ escapeString k ++ "\":" ++ stringify v ++ "," ++ stringifyFields fs
end

/-- Property read on a JavaScript object literal modelled as an ordered
association list: the value of the first entry carrying the key. -/
def jsLookup : List (String × String) → String → Option String
  | [], _ => none
  | p :: rest, k => if p.1 = k then some p.2 else jsLookup rest k

/-- Whether a JavaScript object already owns a key. -/
def jsHasKey : List (String × String) → String → Bool
  | [], _ => false
  | p :: rest, k => if p.1 = k then true else jsHasKey rest k

/-- Overwrite in place of the value stored under an existing key. -/
def jsSetKey : List (String × String) → String × String → List (String × String)
  | [], _ => []
  | p :: rest, kv => (if p.1 = kv.1 then (p.1, kv.2) else p) :: jsSetKey rest kv

/-- Assignment of one property during the evaluation of an object literal:
an existing key is overwritten in place, a new key is appended. -/
def jsInsert (o : List (String × String)) (kv : String × String) : List (String × String) :=
  if jsHasKey o kv.1 then jsSetKey o kv else o ++ [kv]

/-- Object spread semantics of a literal containing base entries followed
by spread entries, as in the header construction of api.ts lines 46 to 49. -/
def jsSpread (base extra : List (String × String)) : List (String × String) :=
  extra.foldl jsInsert base

/-- Value stored under a key by the LAST write among the given entries,
the write that wins under object spread semantics. -/
def jsLookupLast (o : List (String × String)) (k : String) : Option String :=
  jsLookup o.reverse k

/-- First option if present, second otherwise. -/
def optionOr {α : Type} (a b : Option α) : Option α :=
  match a with
  | some v => some v
  | none => b

/-- Error shape built by the HTTP client (api.ts lines 17 to 21).  The
message field is typed string in the source but holds whatever runtime
value the expression on line 63 produced, hence Json here. -/
structure ApiError where
  message : Json
  status : Option Nat := none
  details : Option Json := none
deriving Repr

/-- A JavaScript error value as observed by the catch block of request:
only its name participates in control flow (api.ts line 72). -/
structure JsError where
  name : String
  errText : String := ""
deriving Repr, DecidableEq

/-- A response as observed by request: HTTP status, the content-type
response header, and the body under both decodings offered by the
platform (response.json() assumed to parse, response.text()). -/
structure MockResponse where
  status : Nat
  contentType : Option String := none
  jsonBody : Json := Json.null
  textBody : String := ""
deriving Repr

/-- Observable outcome of the platform fetch call: the abort timer fired
first, fetch rejected with some other error, or a response arrived. -/
inductive FetchOutcome where
  | timeout
  | transportError (e : JsError)
  | response (r : MockResponse)
deriving Repr

/-- Rejection value of a run of request: either the normalized ApiError or
a raw JavaScript error passed through unchanged. -/
inductive RequestError where
  | apiError (e : ApiError)
  | jsError (e : JsError)
deriving Repr

/-- Options accepted by request (api.ts lines 23 to 25): the standard
fetch options that the client inspects, plus the timeout extension.  An
absent field models an absent property of the options object. -/
structure RequestOptions where
  method : Option String := none
  body : Option String := none
  headers : Option (List (String × String)) := none
  timeout : Option Nat := none
deriving Repr, DecidableEq

/-- One network request as handed to fetch (api.ts lines 43 to 50). -/
structure SentRequest where
  url : String
  method : Option String
  body : Option String
  headers : List (String × String)
deriving Repr, DecidableEq

/-- Observable trace of one run of request: the duration armed on the
cancellation timer, the network requests issued, and the settled result. -/
structure RequestRun where
  timerMs : Nat
  sent : List SentRequest
  result : Except RequestError Json
deriving Repr

/-- Whether the first character list begins with the second. -/
def leadingMatch : List Char → List Char → Bool
  | _, [] => true
  | [], _ :: _ => false
  | c :: cs, d :: ds => c == d && leadingMatch cs ds

/-- Whether the second character list occurs inside the first. -/
def charsInclude : List Char → List Char → Bool
  | [], sub => sub.isEmpty
  | c :: cs, sub => leadingMatch (c :: cs) sub || charsInclude cs sub

/-- Substring test modelling String.prototype.includes. -/
def strIncludes (s sub : String) : Bool :=
  charsInclude s.data sub.data

/-- Drop of the leading whitespace characters of a character list. -/
def dropLeadingWs : List Char → List Char
  | [] => []
  | c :: cs => if c.isWhitespace then dropLeadingWs cs else c :: cs

/-- Model of String.prototype.trim: leading and trailing whitespace
removed. -/
def jsTrim (s : String) : String :=
  String.mk (dropLeadingWs (dropLeadingWs s.data).reverse).reverse

/-- The check contentType?.includes("application/json") of api.ts line 55;
a missing content-type header yields undefined, which is falsy. -/
def contentTypeIncludesJson : Option String → Bool
  | none => false
  | some ct => strIncludes ct "application/json"

/-- The response.ok predicate of the fetch platform: status in the
inclusive range 200 to 299. -/
def responseOk (status : Nat) : Bool :=
  decide (200 ≤ status) && decide (status ≤ 299)

/-- Body decoding of api.ts lines 52 to 59: JSON when the content-type
indicates JSON, text otherwise. -/
def decodedBody (r : MockResponse) : Json :=
  if contentTypeIncludesJson r.contentType then r.jsonBody else Json.str r.textBody

/-- The expression data?.message || "Something went wrong" of api.ts
line 63. -/
def errorMessageOf (data : Json) : Json :=
  match getField data "message" with
  | some v => if jsTruthy v then v else Json.str "Something went wrong"
  | none => Json.str "Something went wrong"

/-- The ApiError thrown on a timeout abort (api.ts lines 73 to 75). -/
def timeoutApiError : ApiError :=
  { message := Json.str "Request timeout. Please try again." }

/-- The error value fetch rejects with when the abort controller fires. -/
def abortJsError : JsError :=
  { name := "AbortError" }

/-- The catch block of request (api.ts lines 71 to 78): an error named
AbortError is replaced by the timeout ApiError, anything else is rethrown
unchanged. -/
def catchHandler (e : JsError) : Except RequestError Json :=
  if e.name = "AbortError" then Except.error (RequestError.apiError timeoutApiError)
  else Except.error (RequestError.jsError e)

/-- The core request function (api.ts lines 31 to 82) evaluated against a
given fetch outcome.  The non-2xx ApiError thrown on line 67 reaches the
catch block, whose name test fails on it (an ApiError owns no name
property), so it flows out unchanged, which the response branch below
renders directly. -/
def request (baseUrl path : String) (opts : RequestOptions) (outcome : FetchOutcome) : RequestRun :=
  let timerMs := opts.timeout.getD 10000
  let sentReq : SentRequest :=
    { url := baseUrl ++ path,
      method := opts.method,
      body := opts.body,
      headers := jsSpread [("Content-Type", "application/json")] (opts.headers.getD []) }
  let result : Except RequestError Json :=
    match outcome with
    | FetchOutcome.timeout => catchHandler abortJsError
    | FetchOutcome.transportError e => catchHandler e
    | FetchOutcome.response r =>
        let data := decodedBody r
        if responseOk r.status then Except.ok data
        else Except.error (RequestError.apiError
          { message := errorMessageOf data, status := some r.status, details := some data })
  { timerMs := timerMs, sent := [sentReq], result := result }

/-- Evaluation of the object literal of the convenience methods, for
example braces around method POST, body, spread options (api.ts lines 95
to 100): a field of the caller options overrides the literal default when
present. -/
def mergeIntoOptions (base : RequestOptions) (opts : Option RequestOptions) : RequestOptions :=
  match opts with
  | none => base
  | some o =>
      { method := optionOr o.method base.method,
        body := optionOr o.body base.body,
        headers := optionOr o.headers base.headers,
        timeout := optionOr o.timeout base.timeout }

namespace api

/-- api.get (api.ts lines 89 to 93). -/
def get (baseUrl path : String) (opts : Option RequestOptions) (outcome : FetchOutcome) : RequestRun :=
  request baseUrl path (mergeIntoOptions { method := some "GET" } opts) outcome

/-- api.post (api.ts lines 95 to 100); the optional body goes through
JSON.stringify. -/
def post (baseUrl path : String) (body : Option Json) (opts : Option RequestOptions) (outcome : FetchOutcome) : RequestRun :=
  request baseUrl path (mergeIntoOptions { method := some "POST", body := body.map stringify } opts) outcome

/-- api.put (api.ts lines 102 to 107). -/
def put (baseUrl path : String) (body : Option Json) (opts : Option RequestOptions) (outcome : FetchOutcome) : RequestRun :=
  request baseUrl path (mergeIntoOptions { method := some "PUT", body := body.map stringify } opts) outcome

/-- api.patch (api.ts lines 109 to 114). -/
def patch (baseUrl path : String) (body : Option Json) (opts : Option RequestOptions) (outcome : FetchOutcome) : RequestRun :=
  request baseUrl path (mergeIntoOptions { method := some "PATCH", body := body.map stringify } opts) outcome

/-- api.delete (api.ts lines 116 to 120). -/
def delete (baseUrl path : String) (opts : Option RequestOptions) (outcome : FetchOutcome) : RequestRun :=
  request baseUrl path (mergeIntoOptions { method := some "DELETE" } opts) outcome

end api

/-- The registration payload type (services/registration.ts). -/
structure RegistrationPayload where
  name : String
  email : String
  phone : String
  education : String
  address : String
  courseId : String
  registrationDate : String
deriving Repr, DecidableEq

/-- The JavaScript object value of a registration payload, in the field
order of its construction in handleSubmit. -/
def payloadToJson (p : RegistrationPayload) : Json :=
  Json.obj
    [("name", Json.str p.name), ("email", Json.str p.email),
     ("phone", Json.str p.phone), ("education", Json.str p.education),
     ("address", Json.str p.address), ("courseId", Json.str p.courseId),
     ("registrationDate", Json.str p.registrationDate)]

/-- createRegistration (services/registration.ts): one api.post to the
fixed path with the payload as body and no options. -/
def createRegistration (baseUrl : String) (payload : RegistrationPayload) (outcome : FetchOutcome) : RequestRun :=
  api.post baseUrl "/registrations" (some (payloadToJson payload)) none outcome

/-- Editable state of the registration form (RegistrationModal). -/
structure FormState where
  name : String
  email : String
  phone : String
  education : String
  address : String
  courseId : String
deriving Repr, DecidableEq

/-- The payload object built in handleSubmit (modal component lines 79 to
87): the five text fields are trimmed, courseId is passed through
unchanged, and registrationDate is stamped with the current clock reading
(new Date().toISOString() modelled as the external input nowIso). -/
def buildRegistrationData (form : FormState) (nowIso : String) : RegistrationPayload :=
  { name := jsTrim form.name,
    email := jsTrim form.email,
    phone := jsTrim form.phone,
    education := jsTrim form.education,
    address := jsTrim form.address,
    courseId := form.courseId,
    registrationDate := nowIso }

/-- Control state of the registration modal: the submitting flag and
whether the modal is open.  Both modal components share this logic. -/
structure ModalState where
  submitting : Bool
  modalOpen : Bool
deriving Repr, DecidableEq

/-- Whether the awaited createRegistration call settled well or badly. -/
inductive SubmitOutcome where
  | success
  | failure
deriving Repr, DecidableEq

/-- Discrete input events of the modal flow: a submit trigger, or the
settling of the in-flight call. -/
inductive ModalEvent where
  | submit
  | complete (o : SubmitOutcome)
deriving Repr, DecidableEq

/-- One transition of the modal flow together with the number of network
calls it issues.  A submit while submitting returns at once (handleSubmit
line 76); an accepted submit sets the flag and issues the one call; on
settling, the finally block clears the flag, and onClose runs only in the
success branch (lines 89 to 102). -/
def modalStep (s : ModalState) (e : ModalEvent) : ModalState × Nat :=
  match e with
  | ModalEvent.submit =>
      if s.submitting then (s, 0) else ({ s with submitting := true }, 1)
  | ModalEvent.complete SubmitOutcome.success =>
      ({ submitting := false, modalOpen := false }, 0)
  | ModalEvent.complete SubmitOutcome.failure =>
      ({ s with submitting := false }, 0)

/-- A run of the modal flow over a list of events, accumulating the
number of network calls issued. -/
def modalRun (s : ModalState) : List ModalEvent → ModalState × Nat
  | [] => (s, 0)
  | e :: es =>
      let step := modalStep s e
      let rest := modalRun step.1 es
      (rest.1, step.2 + rest.2)

/-- A sample registration payload used to exercise the theorems on
concrete inputs. -/
def samplePayload : RegistrationPayload :=
  { name := "Ada", email := "ada@mail.test", phone := "123", education := "BSc",
    address := "1 Main St", courseId := "course-1",
    registrationDate := "2026-10-12T00:00:00.000Z" }

/-- The mocked 201 body of the spec: the payload fields plus a server
assigned id of 42. -/
def sampleCreatedBody : Json :=
  Json.obj
    [("name", Json.str "Ada"), ("email", Json.str "ada@mail.test"),
     ("phone", Json.str "123"), ("education", Json.str "BSc"),
     ("address", Json.str "1 Main St"), ("courseId", Json.str "course-1"),
     ("registrationDate", Json.str "2026-10-12T00:00:00.000Z"),
     ("id", Json.num 42)]

/-! Helper lemmas about object spread on header lists. -/

theorem optionOr_none {α : Type} (b : Option α) : optionOr none b = b := rfl

theorem optionOr_some {α : Type} (v : α) (b : Option α) : optionOr (some v) b = some v := rfl

theorem optionOr_self_none {α : Type} (a : Option α) : optionOr a none = a := by
  cases a <;> rfl

theorem jsLookup_append (a b : List (String × String)) (k : String) :
    jsLookup (a ++ b) k = optionOr (jsLookup a k) (jsLookup b k) := by
  induction a with
  | nil => rfl
  | cons p rest ih =>
      by_cases h : p.1 = k
      · simp [jsLookup, h, optionOr]
      · simp [jsLookup, h, ih]

theorem jsLookup_of_hasKey_false (o : List (String × String)) (k : String)
    (h : jsHasKey o k = false) : jsLookup o k = none := by
  induction o with
  | nil => rfl
  | cons p rest ih =>
      by_cases hp : p.1 = k
      · simp [jsHasKey, hp] at h
      · simp [jsHasKey, hp] at h
        simp [jsLookup, hp, ih h]

theorem jsLookup_setKey_ne (o : List (String × String)) (k v k2 : String) (h : k ≠ k2) :
    jsLookup (jsSetKey o (k, v)) k2 = jsLookup o k2 := by
  induction o with
  | nil => rfl
  | cons p rest ih =>
      by_cases hp : p.1 = k
      · simp [jsSetKey, jsLookup, hp, h, ih]
      · simp [jsSetKey, jsLookup, hp, ih]

theorem jsLookup_setKey_eq (o : List (String × String)) (k v : String)
    (h : jsHasKey o k = true) : jsLookup (jsSetKey o (k, v)) k = some v := by
  induction o with
  | nil => simp [jsHasKey] at h
  | cons p rest ih =>
      by_cases hp : p.1 = k
      · simp [jsSetKey, jsLookup, hp]
      · simp [jsHasKey, hp] at h
        simp [jsSetKey, jsLookup, hp, ih h]

theorem jsLookup_insert (o : List (String × String)) (kv : String × String) (k : String) :
    jsLookup (jsInsert o kv) k = if kv.1 = k then some kv.2 else jsLookup o k := by
  obtain ⟨k1, v1⟩ := kv
  by_cases hk : jsHasKey o k1 = true
  · simp only [jsInsert, hk, if_true]
    by_cases hkk : k1 = k
    · subst hkk
      simp [jsLookup_setKey_eq o k1 v1 hk]
    · simp [jsLookup_setKey_ne o k1 v1 k hkk, hkk]
  · have hk2 : jsHasKey o k1 = false := by simpa using hk
    simp only [jsInsert, hk2, Bool.false_eq_true, if_false, jsLookup_append]
    by_cases hkk : k1 = k
    · subst hkk
      simp [jsLookup_of_hasKey_false o k1 hk2, optionOr, jsLookup]
    · simp [jsLookup, hkk, optionOr_self_none]

theorem jsLookup_spread (extra base : List (String × String)) (k : String) :
    jsLookup (jsSpread base extra) k = optionOr (jsLookupLast extra k) (jsLookup base k) := by
  induction extra generalizing base with
  | nil => simp [jsSpread, jsLookupLast, jsLookup, optionOr]
  | cons kv rest ih =>
      have hs : jsSpread base (kv :: rest) = jsSpread (jsInsert base kv) rest := rfl
      have hl : jsLookupLast (kv :: rest) k
          = optionOr (jsLookupLast rest k) (jsLookup [kv] k) := by
        simp [jsLookupLast, jsLookup_append]
      rw [hs, ih, hl]
      cases h : jsLookupLast rest k with
      | some v => simp [optionOr]
      | none =>
          simp only [optionOr_none]
          rw [jsLookup_insert]
          by_cases hkk : kv.1 = k <;> simp [jsLookup, hkk, optionOr]

/-! Claim theorems. -/

/-- C1: createRegistration issues exactly one POST to the fixed path
/registrations with the JSON serialized payload as body; on a 2xx JSON
response it resolves with the decoded body (in particular the mocked 201
body consisting of the payload plus id 42); a timeout rejection and any
other rejection of the HTTP client propagate unchanged, with no retry and
no deduplication. -/
theorem c1_createRegistration_single_post (baseUrl : String) (p : RegistrationPayload)
    (outcome : FetchOutcome) :
    ((createRegistration baseUrl p outcome).sent.length = 1) ∧
    (∀ s ∈ (createRegistration baseUrl p outcome).sent,
        s.url = baseUrl ++ "/registrations" ∧ s.method = some "POST" ∧
        s.body = some (stringify (payloadToJson p))) ∧
    (∀ r : MockResponse, outcome = FetchOutcome.response r → responseOk r.status = true →
        contentTypeIncludesJson r.contentType = true →
        (createRegistration baseUrl p outcome).result = Except.ok r.jsonBody) ∧
    (outcome = FetchOutcome.timeout →
        (createRegistration baseUrl p outcome).result
          = Except.error (RequestError.apiError timeoutApiError)) ∧
    (∀ e : JsError, outcome = FetchOutcome.transportError e → e.name ≠ "AbortError" →
        (createRegistration baseUrl p outcome).result
          = Except.error (RequestError.jsError e)) := by
  refine ⟨rfl, ?_, ?_, ?_, ?_⟩
  · intro s hs
    simp only [createRegistration, api.post, mergeIntoOptions, request,
      List.mem_singleton] at hs
    subst hs
    exact ⟨rfl, rfl, rfl⟩
  · intro r ho hok hct
    subst ho
    simp [createRegistration, api.post, mergeIntoOptions, request, decodedBody, hok, hct]
  · intro ho
    subst ho
    simp [createRegistration, api.post, mergeIntoOptions, request, catchHandler, abortJsError]
  · intro e ho hne
    subst ho
    simp [createRegistration, api.post, mergeIntoOptions, request, catchHandler, hne]

theorem c1_witness :
    (createRegistration "http://api" samplePayload
        (FetchOutcome.response
          { status := 201, contentType := some "application/json",
            jsonBody := sampleCreatedBody })).result = Except.ok sampleCreatedBody :=
  (c1_createRegistration_single_post "http://api" samplePayload
      (FetchOutcome.response
        { status := 201, contentType := some "application/json",
          jsonBody := sampleCreatedBody })).2.2.1
    { status := 201, contentType := some "application/json", jsonBody := sampleCreatedBody }
    rfl (by decide) (by decide)

/-- C2 counterexample: a 400 JSON response whose body owns a present but
empty message field rejects with the generic message, not with the field
value, refuting the claim that a present message field is always used
(the source applies the JavaScript || operator, which discards falsy
values such as the empty string). -/
theorem c2_empty_message_counterexample :
    ((request "http://api" "/registrations" {}
        (FetchOutcome.response
          { status := 400, contentType := some "application/json",
            jsonBody := Json.obj [("message", Json.str "")] })).result
      = Except.error (RequestError.apiError
          { message := Json.str "Something went wrong", status := some 400,
            details := some (Json.obj [("message", Json.str "")]) })) ∧
    Json.str "Something went wrong" ≠ Json.str "" := by
  constructor
  · rfl
  · intro h
    simp at h

/-- C2 (amended): on a response with status outside the 2xx range, request
rejects with an ApiError whose status is the HTTP status, whose details is
the full decoded body, and whose message is the message field of the
decoded body when that field is present with a truthy value (for example a
nonempty string), and the string Something went wrong otherwise, in
particular when the field is absent or present with a falsy value. -/
theorem c2_http_error_shape (baseUrl path : String) (opts : RequestOptions)
    (r : MockResponse) (h : responseOk r.status = false) :
    ((request baseUrl path opts (FetchOutcome.response r)).result
      = Except.error (RequestError.apiError
          { message := errorMessageOf (decodedBody r), status := some r.status,
            details := some (decodedBody r) })) ∧
    (∀ v : Json, getField (decodedBody r) "message" = some v → jsTruthy v = true →
        errorMessageOf (decodedBody r) = v) ∧
    (∀ v : Json, getField (decodedBody r) "message" = some v → jsTruthy v = false →
        errorMessageOf (decodedBody r) = Json.str "Something went wrong") ∧
    (getField (decodedBody r) "message" = none →
        errorMessageOf (decodedBody r) = Json.str "Something went wrong") := by
  refine ⟨?_, ?_, ?_, ?_⟩
  · simp [request, h]
  · intro v hv ht
    simp [errorMessageOf, hv, ht]
  · intro v hv ht
    simp [errorMessageOf, hv, ht]
  · intro hv
    simp [errorMessageOf, hv]

theorem c2_witness :
    (request "http://api" "/registrations" {}
        (FetchOutcome.response
          { status := 400, contentType := some "application/json",
            jsonBody := Json.obj [("message", Json.str "Email already registered")] })).result
      = Except.error (RequestError.apiError
          { message := Json.str "Email already registered", status := some 400,
            details := some (Json.obj [("message", Json.str "Email already registered")]) }) :=
  (c2_http_error_shape "http://api" "/registrations" {}
      { status := 400, contentType := some "application/json",
        jsonBody := Json.obj [("message", Json.str "Email already registered")] }
      (by decide)).1

/-- C3: when the response does not complete within the configured timeout
the call rejects with the ApiError carrying exactly the message Request
timeout. Please try again. and no status; the armed abort timer defaults
to 10000 ms when the timeout option is absent and is the configured value
otherwise. -/
theorem c3_timeout_rejection (baseUrl path : String) (opts : RequestOptions) :
    ((request baseUrl path opts FetchOutcome.timeout).result
      = Except.error (RequestError.apiError
          { message := Json.str "Request timeout. Please try again.",
            status := none, details := none })) ∧
    (opts.timeout = none → (request baseUrl path opts FetchOutcome.timeout).timerMs = 10000) ∧
    (∀ t : Nat, opts.timeout = some t →
        (request baseUrl path opts FetchOutcome.timeout).timerMs = t) := by
  refine ⟨?_, ?_, ?_⟩
  · simp [request, catchHandler, abortJsError, timeoutApiError]
  · intro h
    simp [request, h]
  · intro t h
    simp [request, h]

theorem c3_witness :
    ((request "http://api" "/registrations" {} FetchOutcome.timeout).result
      = Except.error (RequestError.apiError
          { message := Json.str "Request timeout. Please try again.",
            status := none, details := none })) ∧
    ((request "http://api" "/registrations" {} FetchOutcome.timeout).timerMs = 10000) ∧
    ((request "http://api" "/registrations" { timeout := some 5000 } FetchOutcome.timeout).timerMs
      = 5000) :=
  ⟨(c3_timeout_rejection "http://api" "/registrations" {}).1,
   (c3_timeout_rejection "http://api" "/registrations" {}).2.1 rfl,
   (c3_timeout_rejection "http://api" "/registrations" { timeout := some 5000 }).2.2 5000 rfl⟩

/-- C6: the body is decoded according to the content-type of the response,
as JSON when it indicates JSON and as plain text otherwise, and on a 2xx
status the promise resolves with that decoded value. -/
theorem c6_content_type_decoding (baseUrl path : String) (opts : RequestOptions)
    (r : MockResponse) (h : responseOk r.status = true) :
    (contentTypeIncludesJson r.contentType = true →
        (request baseUrl path opts (FetchOutcome.response r)).result = Except.ok r.jsonBody) ∧
    (contentTypeIncludesJson r.contentType = false →
        (request baseUrl path opts (FetchOutcome.response r)).result
          = Except.ok (Json.str r.textBody)) := by
  constructor
  · intro hct
    simp [request, decodedBody, h, hct]
  · intro hct
    simp [request, decodedBody, h, hct]

theorem c6_witness :
    ((request "http://api" "/x" {}
        (FetchOutcome.response
          { status := 200, contentType := some "application/json; charset=utf-8",
            jsonBody := Json.obj [("ok", Json.bool true)] })).result
      = Except.ok (Json.obj [("ok", Json.bool true)])) ∧
    ((request "http://api" "/x" {}
        (FetchOutcome.response
          { status := 200, contentType := some "text/plain", textBody := "hello" })).result
      = Except.ok (Json.str "hello")) :=
  ⟨(c6_content_type_decoding "http://api" "/x" {}
      { status := 200, contentType := some "application/json; charset=utf-8",
        jsonBody := Json.obj [("ok", Json.bool true)] } (by decide)).1 (by decide),
   (c6_content_type_decoding "http://api" "/x" {}
      { status := 200, contentType := some "text/plain", textBody := "hello" } (by decide)).2
     (by decide)⟩

/-- C7: a rejection that is neither the timeout abort nor an HTTP status
failure passes through as the raw underlying error, not normalized into an
ApiError.  Only the abort controller of the timeout can abort this fetch
call (the caller signal is overwritten on api.ts line 45), so an error
named AbortError is exactly a timeout triggered abort, and every other
transport failure carries another name. -/
theorem c7_transport_error_passthrough (baseUrl path : String) (opts : RequestOptions)
    (e : JsError) (h : e.name ≠ "AbortError") :
    (request baseUrl path opts (FetchOutcome.transportError e)).result
      = Except.error (RequestError.jsError e) := by
  simp [request, catchHandler, h]

theorem c7_witness :
    (request "http://api" "/x" {}
        (FetchOutcome.transportError { name := "TypeError", errText := "Failed to fetch" })).result
      = Except.error (RequestError.jsError { name := "TypeError", errText := "Failed to fetch" }) :=
  c7_transport_error_passthrough "http://api" "/x" {}
    { name := "TypeError", errText := "Failed to fetch" } (by decide)

/-- C10: a non-2xx response whose content-type does not indicate JSON is
decoded as plain text, a string can never supply a message field, so the
rejecting ApiError carries exactly the generic message Something went
wrong, with the raw text only in details. -/
theorem c10_non_json_error_message (baseUrl path : String) (opts : RequestOptions)
    (r : MockResponse) (h : responseOk r.status = false)
    (hct : contentTypeIncludesJson r.contentType = false) :
    (request baseUrl path opts (FetchOutcome.response r)).result
      = Except.error (RequestError.apiError
          { message := Json.str "Something went wrong", status := some r.status,
            details := some (Json.str r.textBody) }) := by
  simp [request, decodedBody, errorMessageOf, getField, h, hct]

theorem c10_witness :
    (request "http://api" "/x" {}
        (FetchOutcome.response
          { status := 500, contentType := some "text/plain", textBody := "Server Error" })).result
      = Except.error (RequestError.apiError
          { message := Json.str "Something went wrong", status := some 500,
            details := some (Json.str "Server Error") }) :=
  c10_non_json_error_message "http://api" "/x" {}
    { status := 500, contentType := some "text/plain", textBody := "Server Error" }
    (by decide) (by decide)

/-- C4 counterexample: handleSubmit passes courseId through untrimmed
(modal component line 85), so a course id carrying surrounding whitespace
is transmitted as is, refuting the claim that every string field of the
payload, courseId included, is trimmed. -/
theorem c4_courseid_untrimmed_counterexample :
    ((buildRegistrationData
        { name := "a", email := "b", phone := "c", education := "d", address := "e",
          courseId := " course-1 " } "2026-10-12T00:00:00.000Z").courseId = " course-1 ") ∧
    (jsTrim " course-1 " = "course-1") ∧
    (" course-1 " : String) ≠ "course-1" := by
  refine ⟨rfl, by decide, by decide⟩

/-- C4 (amended): the transmitted payload carries the five text fields
name, email, phone, education and address trimmed of surrounding
whitespace, courseId exactly as held in the form state, and
registrationDate stamped with the current ISO-8601 clock reading; the
single POST body is the JSON serialization of exactly that payload. -/
theorem c4_payload_trimmed_stamped (baseUrl nowIso : String) (form : FormState)
    (outcome : FetchOutcome) :
    (createRegistration baseUrl (buildRegistrationData form nowIso) outcome).sent.map
        SentRequest.body
      = [some (stringify (Json.obj
          [("name", Json.str (jsTrim form.name)), ("email", Json.str (jsTrim form.email)),
           ("phone", Json.str (jsTrim form.phone)),
           ("education", Json.str (jsTrim form.education)),
           ("address", Json.str (jsTrim form.address)),
           ("courseId", Json.str form.courseId),
           ("registrationDate", Json.str nowIso)]))] := by
  rfl

/-- C5: the modal flow is a two state machine on the submitting flag: a
submit while submitting is ignored and an accepted submit issues exactly
one network call, so two submit triggers in rapid succession while the
first call is pending yield exactly one network call; completion returns
the flow to idle whether the call succeeded or failed; and the modal
closes on success only. -/
theorem c5_submit_guard (s : ModalState) (o : SubmitOutcome) :
    (s.submitting = true → modalStep s ModalEvent.submit = (s, 0)) ∧
    (s.submitting = false →
        (modalStep s ModalEvent.submit).2 = 1 ∧
        (modalStep s ModalEvent.submit).1.submitting = true) ∧
    ((modalRun { submitting := false, modalOpen := true }
        [ModalEvent.submit, ModalEvent.submit, ModalEvent.complete o]).2 = 1) ∧
    ((modalStep s (ModalEvent.complete o)).1.submitting = false) ∧
    ((modalStep s (ModalEvent.complete SubmitOutcome.success)).1.modalOpen = false) ∧
    ((modalStep s (ModalEvent.complete SubmitOutcome.failure)).1.modalOpen = s.modalOpen) := by
  obtain ⟨sub, op⟩ := s
  cases o <;> cases sub <;> cases op <;> decide

theorem c5_witness :
    (modalStep { submitting := true, modalOpen := true } ModalEvent.submit
      = ({ submitting := true, modalOpen := true }, 0)) ∧
    ((modalStep { submitting := false, modalOpen := true } ModalEvent.submit).2 = 1) ∧
    ((modalRun { submitting := false, modalOpen := true }
        [ModalEvent.submit, ModalEvent.submit, ModalEvent.complete SubmitOutcome.success]).2
      = 1) :=
  ⟨(c5_submit_guard { submitting := true, modalOpen := true } SubmitOutcome.success).1 rfl,
   ((c5_submit_guard { submitting := false, modalOpen := true } SubmitOutcome.failure).2.1
      rfl).1,
   (c5_submit_guard { submitting := false, modalOpen := true } SubmitOutcome.success).2.2.1⟩

/-- C8: the sent headers are the object spread of the default Content-Type
application/json entry with the caller headers: the default survives
whenever the caller writes no Content-Type entry, a caller written
Content-Type wins with its last written value, and every other key carries
exactly the last value the caller wrote for it. -/
theorem c8_header_merge (baseUrl path : String) (opts : RequestOptions)
    (outcome : FetchOutcome) :
    ∀ s ∈ (request baseUrl path opts outcome).sent,
      (jsLookup s.headers "Content-Type"
        = some ((jsLookupLast (opts.headers.getD []) "Content-Type").getD
            "application/json")) ∧
      (∀ k : String, k ≠ "Content-Type" →
          jsLookup s.headers k = jsLookupLast (opts.headers.getD []) k) := by
  intro s hs
  simp only [request, List.mem_singleton] at hs
  subst hs
  constructor
  · rw [jsLookup_spread]
    cases h : jsLookupLast (opts.headers.getD []) "Content-Type" with
    | some v => simp [optionOr]
    | none => simp [optionOr, jsLookup]
  · intro k hk
    rw [jsLookup_spread]
    have hbase : jsLookup [("Content-Type", "application/json")] k = none := by
      simp [jsLookup, Ne.symm hk]
    rw [hbase, optionOr_self_none]

theorem c8_witness :
    (jsLookup (jsSpread [("Content-Type", "application/json")] [("X-Token", "t")])
        "Content-Type"
      = some ((jsLookupLast [("X-Token", "t")] "Content-Type").getD "application/json")) ∧
    (jsLookup (jsSpread [("Content-Type", "application/json")] [("X-Token", "t")]) "X-Token"
      = jsLookupLast [("X-Token", "t")] "X-Token") :=
  ⟨(c8_header_merge "http://api" "/x" { headers := some [("X-Token", "t")] }
      FetchOutcome.timeout
      { url := "http://api" ++ "/x", method := none, body := none,
        headers := jsSpread [("Content-Type", "application/json")] [("X-Token", "t")] }
      (by simp [request])).1,
   (c8_header_merge "http://api" "/x" { headers := some [("X-Token", "t")] }
      FetchOutcome.timeout
      { url := "http://api" ++ "/x", method := none, body := none,
        headers := jsSpread [("Content-Type", "application/json")] [("X-Token", "t")] }
      (by simp [request])).2 "X-Token" (by decide)⟩

/-- C9 counterexample: the convenience methods spread the caller options
AFTER the method entry of their object literal (api.ts lines 96 to 99), so
an options object carrying a method overrides the supposedly fixed method:
api.post called with options method GET issues a GET, not a POST. -/
theorem c9_method_override_counterexample :
    ((api.post "http://api" "/x" (some Json.null)
        (some { method := some "GET" }) FetchOutcome.timeout).sent.map SentRequest.method
      = [some "GET"]) ∧
    ((api.post "http://api" "/x" (some Json.null)
        (some { method := some "GET" }) FetchOutcome.timeout).sent.map SentRequest.method
      ≠ [some "POST"]) := by
  constructor
  · rfl
  · decide

/-- C9 (amended): the convenience operations delegate to request with
their method, and for post, put and patch the JSON serialized body,
written as literal defaults before the spread of the caller options; hence
whenever the caller options carry no method and no body entry, the issued
request uses the fixed method GET, POST, PUT, PATCH or DELETE respectively
and post, put and patch send exactly the serialized body. -/
theorem c9_wrappers_method_and_body (baseUrl path : String) (b : Json)
    (opts : Option RequestOptions) (outcome : FetchOutcome)
    (hm : (opts.getD {}).method = none) (hb : (opts.getD {}).body = none) :
    ((api.get baseUrl path opts outcome).sent.map SentRequest.method = [some "GET"]) ∧
    ((api.post baseUrl path (some b) opts outcome).sent.map SentRequest.method
      = [some "POST"]) ∧
    ((api.post baseUrl path (some b) opts outcome).sent.map SentRequest.body
      = [some (stringify b)]) ∧
    ((api.put baseUrl path (some b) opts outcome).sent.map SentRequest.method
      = [some "PUT"]) ∧
    ((api.put baseUrl path (some b) opts outcome).sent.map SentRequest.body
      = [some (stringify b)]) ∧
    ((api.patch baseUrl path (some b) opts outcome).sent.map SentRequest.method
      = [some "PATCH"]) ∧
    ((api.patch baseUrl path (some b) opts outcome).sent.map SentRequest.body
      = [some (stringify b)]) ∧
    ((api.delete baseUrl path opts outcome).sent.map SentRequest.method
      = [some "DELETE"]) := by
  cases opts with
  | none => exact ⟨rfl, rfl, rfl, rfl, rfl, rfl, rfl, rfl⟩
  | some o =>
      simp only [Option.getD_some] at hm hb
      refine ⟨?_, ?_, ?_, ?_, ?_, ?_, ?_, ?_⟩ <;>
        simp [api.get, api.post, api.put, api.patch, api.delete, mergeIntoOptions,
          request, hm, hb, optionOr]

theorem c9_witness :
    ((api.post "http://api" "/x" (some (Json.str "v")) none FetchOutcome.timeout).sent.map
        SentRequest.method = [some "POST"]) ∧
    ((api.post "http://api" "/x" (some (Json.str "v")) none FetchOutcome.timeout).sent.map
        SentRequest.body = [some (stringify (Json.str "v"))]) :=
  ⟨(c9_wrappers_method_and_body "http://api" "/x" (Json.str "v") none FetchOutcome.timeout
      rfl rfl).2.1,
   (c9_wrappers_method_and_body "http://api" "/x" (Json.str "v") none FetchOutcome.timeout
      rfl rfl).2.2.1⟩
